import Mathlib

/-!
Shallow embedding of the concurrency/lifecycle core of
`src/native/WinUI3Native/WinUI3Native/WinUI3Native.cpp` (the WinUI3 native
bridge), together with proofs about its event ring, window lifecycle, and
shutdown state machine.

Modelling conventions:
* C++ `int` head/tail indices of the event ring are modelled as `Nat`; the
  source keeps them in `[0, 256)` via `% kEventRingSize`, mirrored here.
* The `w`/`h` fields of an event are IEEE doubles in the source; the ring
  only ever copies them verbatim, so their carrier is modelled as `Int`
  (the copy/ordering behaviour proved here is representation independent).
* Win32/WinRT calls (SetWindowPos, AdjustWindowRectEx, Title, ...) are
  modelled by their documented effect on the observable state (client size,
  title, ...).  HRESULTs are modelled as `Int` holding the signed 32-bit
  value; `FAILED(hr)` is `hr < 0`.
* Logging (`OutputDebugString`, the `g_shutdownSeq` log counter) has no
  modelled effect.  Human-readable printf formatting of hex codes inside
  last-error messages is elided; the code itself is kept in `lastHRESULT`.
-/

/-! ## Event ring (source lines 386-415 and 1937-1967) -/

/-- Event record of the unified event queue (`struct WinUIEventInternal`).
Field `kind`: 1=key 2=mouse 3=resize 4=window_closed 5=window_created. -/
structure WinUIEventInternal where
  kind : Int
  code : Int
  action : Int
  mods : Int
  x : Int
  y : Int
  w : Int
  h : Int
deriving DecidableEq

/-- The zero-initialized event (the static ring array starts zeroed). -/
def ev0 : WinUIEventInternal :=
  { kind := 0, code := 0, action := 0, mods := 0, x := 0, y := 0, w := 0, h := 0 }

/-- Ring capacity (`kEventRingSize`). -/
def kEventRingSize : Nat := 256

/-- State of the event ring: the slot array `g_eventRing` (as a total map,
only indices < 256 are ever written/read), `g_eventHead` (next write),
`g_eventTail` (next read) and `g_eventOverflow`. -/
structure EventRingState where
  slots : Nat → WinUIEventInternal
  head : Nat
  tail : Nat
  overflow : Nat

/-- The initial (module-load) ring state: zeroed slots, head = tail = 0. -/
def ring0 : EventRingState :=
  { slots := fun _ => ev0, head := 0, tail := 0, overflow := 0 }

/-- `EnqueueEvent` (source lines 403-415): compute `next = (head+1) % 256`;
if the ring is full (`next == tail`) drop the oldest entry (advance tail,
bump overflow); then unconditionally write the new event at `head` and set
`head := next`.  The conditional is flattened into two branches, each
performing the same final slot write and head advance as the source. -/
def EnqueueEvent (ev : WinUIEventInternal) (st : EventRingState) : EventRingState :=
  if (st.head + 1) % kEventRingSize = st.tail then
    { slots := fun i => if i = st.head then ev else st.slots i,
      head := (st.head + 1) % kEventRingSize,
      tail := (st.tail + 1) % kEventRingSize,
      overflow := st.overflow + 1 }
  else
    { slots := fun i => if i = st.head then ev else st.slots i,
      head := (st.head + 1) % kEventRingSize,
      tail := st.tail,
      overflow := st.overflow }

/-- The copy loop of `winui_poll_events` (source lines 1948-1961):
`while (tail != head && count < max)` copy `ring[tail]`, advance `tail`.
`rem` is the remaining copy budget `max - count`; the returned pair is the
list of copied events (in copy order) and the final tail index. -/
def pollLoop (slots : Nat → WinUIEventInternal) (head : Nat) :
    Nat → Nat → List WinUIEventInternal × Nat
  | tail, 0 => ([], tail)
  | tail, rem + 1 =>
    if tail = head then ([], tail)
    else
      let r := pollLoop slots head ((tail + 1) % kEventRingSize) rem
      (slots tail :: r.1, r.2)

/-- Result of a `winui_poll_events` call: the returned count, the value
stored through the `more` out-pointer (`none` when the pointer is null),
the ring state after the call, and the events copied into the buffer
supplied by the caller. -/
structure PollOutcome where
  ret : Int
  moreOut : Option Int
  ring : EventRingState
  outWritten : List WinUIEventInternal

/-- `winui_poll_events` (source lines 1937-1967).  `outValid` models
`outEvents != nullptr`, `morePtr` models `more != nullptr`. -/
def winui_poll_events (outValid : Bool) (max : Int) (morePtr : Bool)
    (st : EventRingState) : PollOutcome :=
  if outValid = false ∨ max ≤ 0 then
    { ret := 0, moreOut := if morePtr then some 0 else none,
      ring := st, outWritten := [] }
  else
    let p := pollLoop st.slots st.head st.tail max.toNat
    let newTail := p.2
    { ret := p.1.length,
      moreOut := if morePtr then some (if newTail ≠ st.head then 1 else 0) else none,
      ring := { st with tail := newTail },
      outWritten := p.1 }

/-- The ring state after enqueuing the events of `evs` in order, starting
from the module-load state. -/
def ringAfter (evs : List WinUIEventInternal) : EventRingState :=
  evs.foldl (fun st e => EnqueueEvent e st) ring0

/-! ## Process-wide lifecycle state (diagnostics, window, supervisor)

Globals of the translation unit, modelled as one record.  WinRT object
references are modelled as `Bool` (non-null or null); the control registry
as its size; callback registrations as `Bool`.  Three instrumentation
counters (`closeCbInvocations`, `teardownExecuted`, `cleanupEnqueues`)
count observable calls that the C++ side makes to the outside world or to
the dispatcher; they are not C++ variables. -/

/-- HRESULT constants as signed 32-bit values. -/
def S_OK : Int := 0

def E_FAIL : Int := -2147467259

def E_NOINTERFACE : Int := -2147467262

/-- `HRESULT_FROM_WIN32(ERROR_MOD_NOT_FOUND)` = 0x8007007E. -/
def ERROR_MOD_NOT_FOUND_HR : Int := -2147024770

def kMaxWindowCreateAttempts : Nat := 8

/-- A closure marshalled onto the dispatcher queue of the UI thread. -/
inductive UIWork where
  /-- the title-setting closure of `set_window_title` -/
  | setTitle (t : String)
  /-- the `apply` closure of `set_window_background_color` -/
  | applyBG (argb : Nat)
  /-- the `cleanupAndExit` teardown closure of `ShutdownUI` (first call) -/
  | cleanupAndExit
  /-- the best-effort `app.Exit` nudge of a repeated `ShutdownUI` call -/
  | exitNudge
deriving DecidableEq

structure Globals where
  lastHRESULT : Int := 0
  lastErrorMessage : String := ""
  bootstrapVersion : Nat := 0
  windowCreateAttempts : Nat := 0
  shutdownRequested : Bool := false
  pendingWindowTitle : String := ""
  pendingBGSet : Bool := false
  pendingBGARGB : Nat := 0
  pendingInitialWidth : Int := 0
  pendingInitialHeight : Int := 0
  /-- size of the `g_controls` registry map -/
  controlsCount : Nat := 0
  /-- `g_window` non-null -/
  window : Bool := false
  windowTitle : String := ""
  windowClientW : Int := 0
  windowClientH : Int := 0
  /-- background actually applied to the root of the window (ARGB) -/
  windowBG : Option Nat := none
  windowHandlersAttached : Bool := false
  contentAttached : Bool := false
  overlayRoot : Bool := false
  overlayText : Bool := false
  originalRootFE : Bool := false
  resizeCallback : Bool := false
  inputCallback : Bool := false
  closeCallback : Bool := false
  minClientW : Int := 0
  minClientH : Int := 0
  maxClientW : Int := 0
  maxClientH : Int := 0
  appThreadStarted : Bool := false
  appReady : Bool := false
  uiThreadId : Nat := 0
  dispatcherQueue : Bool := false
  uiThreadJoinable : Bool := false
  /-- the message run loop (`Application::Start`) is active -/
  runLoopStarted : Bool := false
  windowCreationScheduled : Bool := false
  windowReady : Bool := false
  ring : EventRingState := ring0
  /-- pending closures in the dispatcher queue, in enqueue order -/
  uiQueue : List UIWork := []
  /-- window-creation attempts scheduled by `ScheduleWindowCreation` but not
  yet run: (attempt index, backoff delay in ms) -/
  scheduled : List (Nat × Nat) := []
  /-- instrumentation: creation attempts actually executed, with the delay
  each one waited -/
  executedAttempts : List (Nat × Nat) := []
  /-- the function-local `static std::atomic<bool> finished` of `ShutdownUI` -/
  shutdownFinished : Bool := false
  /-- the function-local `static std::atomic<bool> closeCbFired` -/
  closeCbFired : Bool := false
  /-- the function-local `static std::atomic<bool> watchdogStarted` -/
  watchdogStarted : Bool := false
  /-- instrumentation: number of times the registered close callback was
  actually invoked -/
  closeCbInvocations : Nat := 0
  /-- instrumentation: number of times the teardown closure ran -/
  teardownExecuted : Nat := 0
  /-- instrumentation: number of times the teardown closure was enqueued -/
  cleanupEnqueues : Nat := 0

/-- The module-load state (C++ static initializers). -/
def G0 : Globals := {}

/-- `ScheduleWindowCreation` (source lines 549-561): a detached thread
sleeps `50 * (attempt + 1)` ms and then enqueues
`AttemptCreateMainWindow(attempt)` onto the dispatcher; recorded here as a
pending (attempt, delay) entry dispatched in order by `driveCreation`. -/
def ScheduleWindowCreation (attempt : Nat) (st : Globals) : Globals :=
  { st with scheduled := st.scheduled ++ [(attempt, 50 * (attempt + 1))] }

/-- Outcome of the `try` block of one window-creation attempt: success, a
`winrt::hresult_error` with code `hr`, or any other exception. -/
inductive CreateOutcome where
  | ok
  | hresultError (hr : Int) (emsg : String)
  | unknownError
deriving DecidableEq

/-- `AttemptCreateMainWindow` (source lines 563-872).  On success: create
the window and root grid, attach content, apply the pending title (default
"Go WinUI Host" when empty), subclass the HWND for min/max enforcement,
apply the pending initial client size, enqueue a `window_created` event,
mark window-ready, apply the pending background, wire the input handlers,
register the window in the control registry, and record success.  On
`E_NOINTERFACE` with attempts remaining: record the retry message and
schedule the next attempt.  On any other failure (or exhausted retries):
record the terminal error, appending " (giving up)" when the attempt cap
is reached.  (Printf hex formatting of the code inside messages is elided;
the code itself is in `lastHRESULT`.) -/
def AttemptCreateMainWindow (attempt : Nat) (outcome : CreateOutcome)
    (st : Globals) : Globals :=
  if st.window then st
  else
    match outcome with
    | .ok =>
      let title := if st.pendingWindowTitle = "" then "Go WinUI Host"
                   else st.pendingWindowTitle
      let st := { st with window := true, contentAttached := true,
                          overlayRoot := true, originalRootFE := true,
                          windowTitle := title }
      let st := if (0:Int) < st.pendingInitialWidth ∧ (0:Int) < st.pendingInitialHeight then
          { st with windowClientW := st.pendingInitialWidth,
                    windowClientH := st.pendingInitialHeight }
        else st
      let st := { st with ring := EnqueueEvent { ev0 with kind := 5 } st.ring }
      let st := { st with windowReady := true }
      let st := if st.pendingBGSet then { st with windowBG := some st.pendingBGARGB }
        else st
      let st := { st with windowHandlersAttached := true }
      let st := { st with controlsCount := st.controlsCount + 1 }
      { st with lastHRESULT := S_OK, lastErrorMessage := "Main window created" }
    | .hresultError hr emsg =>
      if hr = E_NOINTERFACE ∧ attempt + 1 < kMaxWindowCreateAttempts then
        ScheduleWindowCreation (attempt + 1)
          { st with lastHRESULT := hr,
                    lastErrorMessage := "Window create E_NOINTERFACE attempt="
                      ++ toString attempt ++ " retrying" }
      else
        { st with lastHRESULT := hr,
                  lastErrorMessage := "Window creation failed " ++ emsg ++
                    (if kMaxWindowCreateAttempts ≤ attempt + 1 then " (giving up)" else "") }
    | .unknownError =>
      { st with lastHRESULT := E_FAIL,
                lastErrorMessage := "Window creation unknown exception" }

/-- The dispatcher executing scheduled creation attempts in order, each
with the outcome `outcome attempt`; `fuel` bounds the number of dispatch
steps examined. -/
def driveCreation (outcome : Nat → CreateOutcome) : Nat → Globals → Globals
  | 0, st => st
  | fuel + 1, st =>
    match st.scheduled with
    | [] => st
    | (a, d) :: rest =>
      driveCreation outcome fuel
        (AttemptCreateMainWindow a (outcome a)
          { st with scheduled := rest,
                    executedAttempts := st.executedAttempts ++ [(a, d)] })

/-- Effect of one marshalled closure when the dispatcher runs it. -/
def runUIWork (w : UIWork) (st : Globals) : Globals :=
  match w with
  | .setTitle t => if st.window then { st with windowTitle := t } else st
  | .applyBG argb =>
    if st.shutdownRequested ∨ st.window = false then st
    else { st with windowBG := some argb, overlayRoot := true }
  | .cleanupAndExit =>
    { st with
      windowHandlersAttached := if st.window then false else st.windowHandlersAttached,
      resizeCallback := false, inputCallback := false, closeCallback := false,
      contentAttached := if st.window then false else st.contentAttached,
      originalRootFE := false, overlayText := false, overlayRoot := false,
      controlsCount := 0,
      runLoopStarted := false,
      teardownExecuted := st.teardownExecuted + 1 }
  | .exitNudge => { st with runLoopStarted := false }

/-- The dispatcher draining its queue in FIFO order. -/
def runUIQueue (q : List UIWork) (st : Globals) : Globals :=
  q.foldl (fun s w => runUIWork w s) st

/-- `create_window` (source lines 1737-1803).  With a window present:
retitle (when a non-empty title is given) and resize the client area (when
both dimensions are positive and differ from the current client size), and
return the existing handle.  With no window: store the pending title/size
slots and schedule the first creation attempt exactly once; return null.
The returned `Bool` models handle-non-null. -/
def create_window (width height : Int) (title : Option String) (st : Globals) :
    Bool × Globals :=
  if st.window then
    let st := match title with
      | some t => if t ≠ "" then { st with windowTitle := t } else st
      | none => st
    let st := if 0 < width ∧ 0 < height ∧
        (st.windowClientW ≠ width ∨ st.windowClientH ≠ height) then
        { st with windowClientW := width, windowClientH := height }
      else st
    (true, { st with lastHRESULT := S_OK,
                     lastErrorMessage := "create_window returned existing window" })
  else
    let st := match title with
      | some t => if t ≠ "" then { st with pendingWindowTitle := t } else st
      | none => st
    let st := if 0 < width then { st with pendingInitialWidth := width } else st
    let st := if 0 < height then { st with pendingInitialHeight := height } else st
    let st := if st.windowCreationScheduled = false then
        ScheduleWindowCreation 0 { st with windowCreationScheduled := true }
      else st
    (false, { st with lastHRESULT := S_OK,
                      lastErrorMessage := "create_window: window not ready (scheduled)" })

/-- `set_window_title` (source lines 1480-1512): no-op on a null title or
when no window exists; otherwise set the title directly on the UI thread,
or enqueue the title-setting closure when a dispatcher is available. -/
def set_window_title (title : Option String) (callerIsUI : Bool) (st : Globals) :
    Globals :=
  match title with
  | none => st
  | some t =>
    if st.window = false then st
    else if callerIsUI then { st with windowTitle := t }
    else if st.dispatcherQueue then
      { st with uiQueue := st.uiQueue ++ [UIWork.setTitle t] }
    else st

/-- `set_window_background_color` (source lines 1584-1710): skipped when
shutdown was requested; stores the pending ARGB when no window exists;
otherwise runs the apply closure in place (UI thread) or enqueues it. -/
def set_window_background_color (a r g b : Nat) (callerIsUI : Bool)
    (st : Globals) : Globals :=
  if st.shutdownRequested then st
  else
    let argb := (a <<< 24) ||| (r <<< 16) ||| (g <<< 8) ||| b
    if st.window = false then
      { st with pendingBGARGB := argb, pendingBGSet := true }
    else if callerIsUI then runUIWork (UIWork.applyBG argb) st
    else if st.dispatcherQueue then
      { st with uiQueue := st.uiQueue ++ [UIWork.applyBG argb] }
    else st

/-- `set_window_min_max` (source lines 1714-1735): unconditionally stores
the four client-size bounds; when a window handle exists it re-applies the
current outer bounds with SWP_FRAMECHANGED (no client-size change). -/
def set_window_min_max (minW minH maxW maxH : Int) (st : Globals) : Globals :=
  { st with minClientW := minW, minClientH := minH,
            maxClientW := maxW, maxClientH := maxH }

/-- `ShutdownUI` (source lines 1021-1412), sequentialized.  The mutex-
guarded test-and-set of `g_shutdownRequested` decides `firstCall`; the
repeat-call fast path returns once teardown `finished`; the first call
enqueues the teardown closure; a repeat call (teardown unfinished)
enqueues a best-effort `app.Exit` nudge; joining the UI thread drains the
dispatcher queue; then the caller thread clears window state, the control
registry, the callback pointers, the dispatcher reference, and the
lifecycle flags, marks `finished`, runs the one-shot close-notification
block, and clears window-ready. -/
def ShutdownUI (st : Globals) : Globals :=
  let firstCall : Bool := !st.shutdownRequested
  let st1 := { st with shutdownRequested := true }
  if firstCall = false ∧ st1.shutdownFinished = true then
    { st1 with lastHRESULT := S_OK,
               lastErrorMessage := "Shutdown complete (idempotent fast-path)" }
  else
    let enq : Bool := firstCall && st1.dispatcherQueue
    let st2 := { st1 with
      uiQueue := st1.uiQueue ++ (if enq then [UIWork.cleanupAndExit] else []),
      cleanupEnqueues := st1.cleanupEnqueues + (if enq then 1 else 0) }
    let st3 := { st2 with watchdogStarted := true }
    let nudge : Bool := !firstCall && st3.dispatcherQueue
    let st4 := { st3 with
      uiQueue := st3.uiQueue ++ (if nudge then [UIWork.exitNudge] else []) }
    let st5 := if st4.uiThreadJoinable then
        { runUIQueue st4.uiQueue { st4 with uiQueue := [] } with
          uiThreadJoinable := false }
      else st4
    let st6 := { st5 with
      windowHandlersAttached := if st5.window then false else st5.windowHandlersAttached,
      contentAttached := if st5.window then false else st5.contentAttached,
      controlsCount := 0,
      window := false, overlayRoot := false, overlayText := false,
      originalRootFE := false,
      resizeCallback := false, inputCallback := false, closeCallback := false,
      dispatcherQueue := false, uiThreadId := 0,
      appReady := false, appThreadStarted := false,
      windowCreationScheduled := false, windowCreateAttempts := 0,
      shutdownFinished := true }
    let fire : Bool := !st6.closeCbFired && st6.closeCallback
    let st7 := { st6 with
      closeCbFired := true,
      closeCbInvocations := st6.closeCbInvocations + (if fire then 1 else 0) }
    { st7 with
      windowReady := false, lastHRESULT := S_OK,
      lastErrorMessage := if firstCall then "Shutdown complete"
                          else "Shutdown complete (idempotent late)" }

/-- Bootstrap candidate versions `(major << 16) | minor`, descending. -/
def kBootstrapCandidates : List Nat :=
  [(1 <<< 16) ||| 8, (1 <<< 16) ||| 7, (1 <<< 16) ||| 6, (1 <<< 16) ||| 5]

/-- Candidate loop of `TryBootstrapMulti` (source lines 161-174):
`attemptHR v` is the HRESULT returned by `MddBootstrapInitialize(v)`. -/
def bootstrapLoop (attemptHR : Nat → Int) : List Nat → Int → Int × Nat
  | [], lastHr => (lastHr, 0)
  | v :: rest, lastHr =>
    if 0 ≤ attemptHR v then (S_OK, v)
    else bootstrapLoop attemptHR rest (attemptHR v)

/-- `TryBootstrapMulti` (source lines 152-175): returns the module-not-
found HRESULT when the bootstrap DLL cannot be resolved, else tries the
candidates in order, remembering the last failure code; the second
component is the version recorded in `g_bootstrapVersion` on success. -/
def TryBootstrapMulti (loadOk : Bool) (attemptHR : Nat → Int) : Int × Nat :=
  if loadOk = false then (ERROR_MOD_NOT_FOUND_HR, 0)
  else bootstrapLoop attemptHR kBootstrapCandidates E_FAIL

/-- The UI thread body spawned by `StartAppThread` (source lines 886-942),
up to the point where it either returns (total bootstrap failure: last
error recorded, app-ready signalled, run loop never entered) or sits in
the message run loop (success: apartment initialized, app-ready signalled
in `OnLaunched`, first window-creation attempt scheduled exactly once). -/
def uiThreadBody (loadOk : Bool) (attemptHR : Nat → Int) (st : Globals) : Globals :=
  let r := TryBootstrapMulti loadOk attemptHR
  if r.1 < 0 then
    { st with lastHRESULT := r.1,
              lastErrorMessage := "All bootstrap attempts failed",
              appReady := true }
  else
    let st := { st with bootstrapVersion := r.2, lastHRESULT := S_OK,
                        lastErrorMessage := "Bootstrap succeeded; initializing apartment" }
    let st := { st with uiThreadId := 1, dispatcherQueue := true,
                        appReady := true, runLoopStarted := true }
    if st.windowCreationScheduled = false then
      ScheduleWindowCreation 0 { st with windowCreationScheduled := true }
    else st

/-- `StartAppThread` (source lines 877-950): coalesces concurrent starts
via `g_appThreadStarted` under the init mutex; spawns the UI thread.  In
this sequential model the pre-run-loop section of the spawned thread
completes before the app-ready wait of `InitUI` returns (exactly the synchronization the
condition variable enforces for the fields modelled here). -/
def StartAppThread (loadOk : Bool) (attemptHR : Nat → Int) (st : Globals) :
    Int × Globals :=
  if st.appThreadStarted then (S_OK, st)
  else (S_OK, uiThreadBody loadOk attemptHR
    { st with appThreadStarted := true, uiThreadJoinable := true })

/-- `InitUI` (source lines 995-1019): start the thread, wait for app-ready
(which returns `g_lastHRESULT`), fail out on a failed recorded result or a
missing dispatcher, else record and return success. -/
def InitUI (loadOk : Bool) (attemptHR : Nat → Int) (st : Globals) : Int × Globals :=
  let r := StartAppThread loadOk attemptHR st
  if r.1 < 0 then r
  else
    let st := r.2
    if st.lastHRESULT < 0 then (st.lastHRESULT, st)
    else if st.dispatcherQueue = false then
      (E_FAIL, { st with lastHRESULT := E_FAIL,
                         lastErrorMessage := "DispatcherQueue not available after app start" })
    else if st.window = false then
      (S_OK, { st with lastHRESULT := S_OK,
                       lastErrorMessage := "InitUI: app ready (window pending)" })
    else
      (S_OK, { st with lastHRESULT := S_OK,
                       lastErrorMessage := "InitUI: app + window ready" })

/-- Invariant of the ring once it has wrapped (256 or more enqueues from
empty): head/tail chase each other one slot apart, the overflow counter
counts the dropped events, and slot `i % 256` holds event `i` for each of
the last 256 events. -/
def WrapInv (evs : List WinUIEventInternal) (st : EventRingState) : Prop :=
  st.head = evs.length % 256 ∧ st.tail = (evs.length + 1) % 256 ∧
  st.overflow = evs.length - 255 ∧
  ∀ i, evs.length ≤ i + 256 → i < evs.length → st.slots (i % 256) = evs.getD i ev0

/-- A concrete key event carrying `n` in its `code` field. -/
def natEv (n : Nat) : WinUIEventInternal := { ev0 with kind := 1, code := (n : Int) }

/-- 256 distinct events (exactly the ring capacity). -/
def evs256 : List WinUIEventInternal := (List.range 256).map natEv

/-- 257 distinct events (capacity + 1). -/
def evs257 : List WinUIEventInternal := (List.range 257).map natEv

/-! ## Concrete states and auxiliary predicates -/

/-- A steady running state: app thread started and ready, dispatcher and
window up, handlers wired, all three callbacks registered, the window in
the control registry, no shutdown yet. -/
def GRunning : Globals :=
  { appThreadStarted := true, appReady := true, uiThreadId := 1,
    dispatcherQueue := true, uiThreadJoinable := true, runLoopStarted := true,
    windowCreationScheduled := true, window := true, windowReady := true,
    windowTitle := "Go WinUI Host", contentAttached := true, overlayRoot := true,
    originalRootFE := true, windowHandlersAttached := true, controlsCount := 1,
    resizeCallback := true, inputCallback := true, closeCallback := true }

/-- The state right after `OnLaunched` signalled app-ready, before any
window-creation attempt ran. -/
def GAppStarted : Globals :=
  { appThreadStarted := true, appReady := true, uiThreadId := 1,
    dispatcherQueue := true, uiThreadJoinable := true, runLoopStarted := true,
    windowCreationScheduled := true }

/-- A quiescent state in which shutdown has been requested. -/
def GShutRequested : Globals := { shutdownRequested := true }

/-- A running state in which shutdown has just been requested (e.g. by a
concurrent `ShutdownUI` call that has not torn anything down yet). -/
def GShutActive : Globals := { GRunning with shutdownRequested := true }

/-- Every creation attempt fails with the transient `E_NOINTERFACE`. -/
def noInterfaceAlways (emsg : String) : Nat → CreateOutcome :=
  fun _ => CreateOutcome.hresultError E_NOINTERFACE emsg

/-- The message text contains the substring "giving up". -/
def containsGivingUp (s : String) : Prop :=
  ∃ pre post : List Char, s.data = pre ++ "giving up".data ++ post

/-- The mutex-guarded entry step of `ShutdownUI` (source lines 1025-1032):
atomically read `g_shutdownRequested`, set it, and report whether this
caller is the first (`firstCall`).  Returns (new flag value, firstCall). -/
def shutdownFirstCallStep (requested : Bool) : Bool × Bool :=
  (true, !requested)

/-- Number of callers that obtain `firstCall = true` when the entry steps
of a collection of concurrent `ShutdownUI` calls execute in some
serialization order (the mutex serializes them; the order is arbitrary). -/
def winnersCount : List Unit → Bool → Nat
  | [], _ => 0
  | _ :: rest, requested =>
    let p := shutdownFirstCallStep requested
    (if p.2 then 1 else 0) + winnersCount rest p.1

/-! ### Ring lemmas -/

theorem ringAfter_append_one (l : List WinUIEventInternal) (e : WinUIEventInternal) :
    ringAfter (l ++ [e]) = EnqueueEvent e (ringAfter l) := by
  simp [ringAfter, List.foldl_append]

/-- State after at most 255 enqueues from empty: no wraparound, no drops. -/
theorem ringAfter_small (evs : List WinUIEventInternal) (h : evs.length ≤ 255) :
    (ringAfter evs).head = evs.length ∧ (ringAfter evs).tail = 0 ∧
    (ringAfter evs).overflow = 0 ∧
    ∀ i, i < evs.length → (ringAfter evs).slots i = evs.getD i ev0 := by
  induction evs using List.reverseRecOn with
  | nil =>
    refine ⟨rfl, rfl, rfl, ?_⟩
    intro i hi
    simp at hi
  | append_singleton l e ih =>
    have h256 : kEventRingSize = 256 := rfl
    have hlen : (l ++ [e]).length = l.length + 1 := by simp
    have hl : l.length ≤ 254 := by omega
    obtain ⟨ih1, ih2, ih3, ih4⟩ := ih (by omega)
    have hmod : (l.length + 1) % kEventRingSize = l.length + 1 := by
      rw [h256]
      exact Nat.mod_eq_of_lt (by omega)
    have key : ringAfter (l ++ [e]) =
        { slots := fun i => if i = l.length then e else (ringAfter l).slots i,
          head := l.length + 1, tail := 0, overflow := 0 } := by
      rw [ringAfter_append_one]
      unfold EnqueueEvent
      rw [ih1, ih2, ih3, hmod, if_neg (by omega : ¬ (l.length + 1 = 0))]
    rw [key, hlen]
    refine ⟨rfl, rfl, rfl, ?_⟩
    intro i hi
    by_cases hcase : i = l.length
    · subst hcase
      simp
    · have hi' : i < l.length := by omega
      simp only [if_neg hcase]
      rw [ih4 i hi']
      unfold List.getD
      rw [List.get?_append hi']

theorem ringAfter_wrapInv (evs : List WinUIEventInternal) (h : 256 ≤ evs.length) :
    WrapInv evs (ringAfter evs) := by
  induction evs using List.reverseRecOn with
  | nil => simp at h
  | append_singleton l e ih =>
    have h256 : kEventRingSize = 256 := rfl
    have hlen : (l ++ [e]).length = l.length + 1 := by simp
    rcases Nat.lt_or_ge l.length 256 with hl | hl
    · -- the enqueue that causes the first wraparound: l.length = 255
      have h255 : l.length = 255 := by omega
      obtain ⟨b1, b2, b3, b4⟩ := ringAfter_small l (by omega)
      have key : ringAfter (l ++ [e]) =
          { slots := fun i => if i = 255 then e else (ringAfter l).slots i,
            head := 0, tail := 1, overflow := 1 } := by
        rw [ringAfter_append_one]
        unfold EnqueueEvent
        rw [b1, b2, b3, h255, h256]
        norm_num
      refine ⟨?_, ?_, ?_, ?_⟩
      · rw [key, hlen, h255]
      · rw [key, hlen, h255]
      · rw [key, hlen, h255]
      · intro i hle hlt
        rw [hlen, h255] at hlt
        have hi256 : i % 256 = i := Nat.mod_eq_of_lt (by omega)
        rw [key]
        by_cases hcase : i = 255
        · subst hcase
          simp only [hi256, if_pos rfl]
          unfold List.getD
          rw [List.get?_append_right (by omega)]
          rw [h255]
          simp
        · have hi' : i < l.length := by omega
          simp only [hi256, if_neg hcase]
          rw [b4 i hi']
          unfold List.getD
          rw [List.get?_append hi']
    · -- steady-state wraparound step
      obtain ⟨i1, i2, i3, i4⟩ := ih hl
      set n := l.length with hn
      have key : ringAfter (l ++ [e]) =
          { slots := fun i => if i = n % 256 then e else (ringAfter l).slots i,
            head := (n + 1) % 256, tail := (n + 2) % 256,
            overflow := n - 255 + 1 } := by
        rw [ringAfter_append_one]
        unfold EnqueueEvent
        rw [i1, i2, i3, h256]
        rw [if_pos (by omega : (n % 256 + 1) % 256 = (n + 1) % 256)]
        have ht2 : ((n + 1) % 256 + 1) % 256 = (n + 2) % 256 := by omega
        have hh : (n % 256 + 1) % 256 = (n + 1) % 256 := by omega
        rw [ht2, hh]
      refine ⟨?_, ?_, ?_, ?_⟩
      · rw [key, hlen]
      · rw [key, hlen]
      · rw [key, hlen]
        simp only []
        omega
      · intro i hle hlt
        rw [hlen] at hle hlt
        rw [key]
        by_cases hcase : i = n
        · subst hcase
          simp only [if_pos rfl]
          unfold List.getD
          rw [List.get?_append_right (by omega)]
          simp
        · have hlt' : i < n := by omega
          have hge : n ≤ i + 255 := by omega
          have hne : i % 256 ≠ n % 256 := by omega
          simp only [if_neg hne]
          rw [i4 i (by omega) hlt']
          unfold List.getD
          rw [List.get?_append hlt']

/-- The poll copy loop, characterized: starting at `tail` with `d` unread
slots ahead of it (`(tail + d) % 256 = head`, `d` minimal) and a budget of
at least `d`, the loop copies exactly the `d` slots from `tail` onwards and
stops at `head`. -/
theorem pollLoop_spec (slots : Nat → WinUIEventInternal) (head : Nat) :
    ∀ d tail rem, tail < 256 → d < 256 → (tail + d) % 256 = head → d ≤ rem →
    pollLoop slots head tail rem =
      ((List.range d).map (fun j => slots ((tail + j) % 256)), (tail + d) % 256) := by
  intro d
  induction d with
  | zero =>
    intro tail rem htail hd hdist hrem
    have hhead : head = tail := by omega
    cases rem with
    | zero => simp [pollLoop, hhead, Nat.mod_eq_of_lt htail]
    | succ r => simp [pollLoop, hhead, Nat.mod_eq_of_lt htail]
  | succ d ih =>
    intro tail rem htail hd hdist hrem
    obtain ⟨r, hr⟩ : ∃ r, rem = r + 1 := ⟨rem - 1, by omega⟩
    subst hr
    have hne : tail ≠ head := by omega
    have h256 : kEventRingSize = 256 := rfl
    have hrec := ih ((tail + 1) % 256) r (by omega) (by omega) (by omega) (by omega)
    have hmap : (List.range (d + 1)).map (fun j => slots ((tail + j) % 256))
        = slots tail :: (List.range d).map (fun j => slots (((tail + 1) % 256 + j) % 256)) := by
      rw [List.range_succ_eq_map, List.map_cons, List.map_map]
      refine congrArg₂ List.cons ?_ ?_
      · rw [Nat.add_zero, Nat.mod_eq_of_lt htail]
      · refine List.map_congr_left fun j hj => ?_
        simp only [Function.comp_apply]
        congr 1
        omega
    have hsnd : ((tail + 1) % 256 + d) % 256 = (tail + (d + 1)) % 256 := by omega
    simp only [pollLoop, if_neg hne, h256, hrec, hmap, hsnd]

theorem drop_eq_map_range (l : List WinUIEventInternal) (m : Nat) (hm : m ≤ l.length) :
    l.drop m = (List.range (l.length - m)).map (fun j => l.getD (m + j) ev0) := by
  apply List.ext_getElem
  · simp
  · intro i h1 h2
    simp only [List.getElem_drop, List.getElem_map, List.getElem_range]
    rw [List.getD_eq_getElem]

/-- Draining with `max = 256` after the ring has wrapped: exactly 255
events come out, namely the most recent 255 enqueued, and the overflow
counter equals the number of dropped (oldest) events. -/
theorem drain_after_wrap (evs : List WinUIEventInternal) (h : 256 ≤ evs.length) :
    (winui_poll_events true 256 true (ringAfter evs)).outWritten =
      evs.drop (evs.length - 255) ∧
    (winui_poll_events true 256 true (ringAfter evs)).ret = 255 ∧
    (ringAfter evs).overflow = evs.length - 255 := by
  obtain ⟨h1, h2, h3, h4⟩ := ringAfter_wrapInv evs h
  set n := evs.length with hn
  have hcond : ¬ ((true : Bool) = false ∨ (256 : Int) ≤ 0) := by simp
  have hloop := pollLoop_spec (ringAfter evs).slots (ringAfter evs).head 255
      ((n + 1) % 256) 256 (by omega) (by omega) (by rw [h1]; omega) (by omega)
  have hmap : (List.range 255).map
        (fun j => (ringAfter evs).slots (((n + 1) % 256 + j) % 256))
      = (List.range 255).map (fun j => evs.getD (n - 255 + j) ev0) := by
    refine List.map_congr_left fun j hj => ?_
    simp only [List.mem_range] at hj
    rw [show ((n + 1) % 256 + j) % 256 = (n - 255 + j) % 256 by omega]
    exact h4 (n - 255 + j) (by omega) (by omega)
  have hdrop : evs.drop (n - 255)
      = (List.range 255).map (fun j => evs.getD (n - 255 + j) ev0) := by
    rw [drop_eq_map_range evs (n - 255) (by omega)]
    rw [show n - (n - 255) = 255 by omega]
  unfold winui_poll_events
  rw [if_neg hcond]
  rw [show ((256 : Int)).toNat = 256 from rfl]
  rw [h2, hloop, hmap]
  refine ⟨by rw [hdrop], by simp, h3⟩

/-! ### C5, C6, C10 -/

/-- C6 (amended): for any sequence of at most 255 = capacity − 1 enqueues
starting from an empty ring, a drain with max = capacity returns exactly
those events, in enqueue order, with identical field values, and reports
no further unread events. -/
theorem ring_fifo_below_capacity (evs : List WinUIEventInternal)
    (h : evs.length ≤ 255) :
    (winui_poll_events true 256 true (ringAfter evs)).outWritten = evs ∧
    (winui_poll_events true 256 true (ringAfter evs)).ret = (evs.length : Int) ∧
    (winui_poll_events true 256 true (ringAfter evs)).moreOut = some 0 := by
  obtain ⟨h1, h2, h3, h4⟩ := ringAfter_small evs h
  set n := evs.length with hn
  have hcond : ¬ ((true : Bool) = false ∨ (256 : Int) ≤ 0) := by simp
  have hloop := pollLoop_spec (ringAfter evs).slots (ringAfter evs).head n
      0 256 (by omega) (by omega) (by rw [h1]; omega) (by omega)
  have hmap : (List.range n).map (fun j => (ringAfter evs).slots ((0 + j) % 256))
      = evs := by
    have : ∀ j, j ∈ List.range n → (ringAfter evs).slots ((0 + j) % 256)
        = evs.getD (0 + j) ev0 := by
      intro j hj
      simp only [List.mem_range] at hj
      rw [Nat.zero_add, Nat.mod_eq_of_lt (by omega)]
      exact h4 j hj
    rw [List.map_congr_left this]
    have hd := drop_eq_map_range evs 0 (by omega)
    simp only [List.drop_zero, Nat.sub_zero] at hd
    exact hd.symm
  unfold winui_poll_events
  rw [if_neg hcond]
  rw [show ((256 : Int)).toNat = 256 from rfl]
  rw [h2, hloop, hmap]
  have hfin : (0 + n) % 256 = (ringAfter evs).head := by rw [h1]; omega
  refine ⟨rfl, by simp [hn], ?_⟩
  simp only [hfin]
  simp

/-- C6 witness: three concrete events drain back unchanged. -/
theorem ring_fifo_below_capacity_witness :
    (winui_poll_events true 256 true (ringAfter [natEv 0, natEv 1, natEv 2])).outWritten
      = [natEv 0, natEv 1, natEv 2] ∧
    (winui_poll_events true 256 true
      (ringAfter [natEv 0, natEv 1, natEv 2])).ret = (([natEv 0, natEv 1, natEv 2] : List WinUIEventInternal).length : Int) ∧
    (winui_poll_events true 256 true (ringAfter [natEv 0, natEv 1, natEv 2])).moreOut = some 0 :=
  ring_fifo_below_capacity [natEv 0, natEv 1, natEv 2] (by simp)

/-- C6 counterexample: at exactly capacity = 256 enqueues the claim fails;
the drain returns only 255 events (the first enqueued event was dropped),
not the 256 that were enqueued. -/
theorem ring_fifo_fails_at_exact_capacity :
    (winui_poll_events true 256 true (ringAfter evs256)).outWritten ≠ evs256 := by
  have hlen : evs256.length = 256 := by simp [evs256]
  obtain ⟨ho, _, _⟩ := drain_after_wrap evs256 (by omega)
  intro hEq
  rw [ho] at hEq
  have := congrArg List.length hEq
  rw [List.length_drop, hlen] at this
  simp at this

/-- C5 (amended): enqueuing capacity + k events (k > 0) from empty and
draining with max = capacity yields exactly capacity − 1 = 255 events,
consisting of the most recent 255 events pushed, and leaves the overflow
counter at k + 1 ≥ k. -/
theorem ring_overflow_drains_capacity_minus_one (k : Nat)
    (evs : List WinUIEventInternal) (hk : 0 < k) (hlen : evs.length = 256 + k) :
    (winui_poll_events true 256 true (ringAfter evs)).outWritten = evs.drop (k + 1) ∧
    (winui_poll_events true 256 true (ringAfter evs)).outWritten.length = 255 ∧
    (ringAfter evs).overflow = k + 1 ∧
    k ≤ (ringAfter evs).overflow := by
  obtain ⟨ho, hr, hov⟩ := drain_after_wrap evs (by omega)
  rw [hlen] at ho hov
  rw [show 256 + k - 255 = k + 1 by omega] at ho hov
  refine ⟨ho, ?_, hov, by omega⟩
  rw [ho, List.length_drop, hlen]
  omega

/-- C5 witness: 257 concrete events; the drain returns the last 255 and
the overflow counter is 2 ≥ 1. -/
theorem ring_overflow_drains_capacity_minus_one_witness :
    (winui_poll_events true 256 true (ringAfter evs257)).outWritten = evs257.drop 2 ∧
    (winui_poll_events true 256 true (ringAfter evs257)).outWritten.length = 255 ∧
    (ringAfter evs257).overflow = 2 ∧
    1 ≤ (ringAfter evs257).overflow :=
  ring_overflow_drains_capacity_minus_one 1 evs257 (by omega) (by simp [evs257])

/-- C5 counterexample: with capacity + 1 = 257 events enqueued, the drain
does NOT yield capacity = 256 events (it yields 255). -/
theorem ring_overflow_drain_count_not_capacity :
    (winui_poll_events true 256 true (ringAfter evs257)).outWritten.length ≠ 256 := by
  obtain ⟨ho, _, _⟩ := drain_after_wrap evs257 (by simp [evs257])
  rw [ho, List.length_drop]
  simp [evs257]

/-- C10: calling `winui_poll_events` with a null output buffer or a
non-positive max returns 0, stores 0 through a non-null `more` pointer,
and leaves the ring state (in particular the tail index and hence the set
of unread events) unchanged. -/
theorem winui_poll_events_guard (outValid : Bool) (max : Int) (morePtr : Bool)
    (st : EventRingState) (h : outValid = false ∨ max ≤ 0) :
    (winui_poll_events outValid max morePtr st).ret = 0 ∧
    (winui_poll_events outValid max morePtr st).moreOut
      = (if morePtr then some 0 else none) ∧
    (morePtr = true → (winui_poll_events outValid max morePtr st).moreOut = some 0) ∧
    (winui_poll_events outValid max morePtr st).ring = st := by
  unfold winui_poll_events
  rw [if_pos h]
  refine ⟨rfl, rfl, ?_, rfl⟩
  intro hm
  rw [if_pos hm]

/-- C10 witness: null buffer, max = 5, non-null more pointer. -/
theorem winui_poll_events_guard_witness :
    (winui_poll_events false 5 true ring0).ret = 0 ∧
    (winui_poll_events false 5 true ring0).moreOut
      = (if (true : Bool) then some 0 else none) ∧
    ((true : Bool) = true → (winui_poll_events false 5 true ring0).moreOut = some 0) ∧
    (winui_poll_events false 5 true ring0).ring = ring0 :=
  winui_poll_events_guard false 5 true ring0 (Or.inl rfl)

/-! ### Shutdown lemmas (C1, C3, C8) -/

theorem runUIQueue_cons (w : UIWork) (q : List UIWork) (st : Globals) :
    runUIQueue (w :: q) st = runUIQueue q (runUIWork w st) := rfl

/-- No marshalled closure ever invokes the close callback. -/
theorem runUIWork_closeCbInvocations (w : UIWork) (st : Globals) :
    (runUIWork w st).closeCbInvocations = st.closeCbInvocations := by
  cases w with
  | setTitle t =>
    simp only [runUIWork]
    split <;> rfl
  | applyBG argb =>
    simp only [runUIWork]
    split <;> rfl
  | cleanupAndExit => rfl
  | exitNudge => rfl

theorem runUIWork_shutdownRequested (w : UIWork) (st : Globals) :
    (runUIWork w st).shutdownRequested = st.shutdownRequested := by
  cases w with
  | setTitle t =>
    simp only [runUIWork]
    split <;> rfl
  | applyBG argb =>
    simp only [runUIWork]
    split <;> rfl
  | cleanupAndExit => rfl
  | exitNudge => rfl

theorem runUIQueue_closeCbInvocations (q : List UIWork) (st : Globals) :
    (runUIQueue q st).closeCbInvocations = st.closeCbInvocations := by
  induction q generalizing st with
  | nil => rfl
  | cons w q ih =>
    rw [runUIQueue_cons, ih, runUIWork_closeCbInvocations]

theorem runUIQueue_shutdownRequested (q : List UIWork) (st : Globals) :
    (runUIQueue q st).shutdownRequested = st.shutdownRequested := by
  induction q generalizing st with
  | nil => rfl
  | cons w q ih =>
    rw [runUIQueue_cons, ih, runUIWork_shutdownRequested]

/-- C1: `ShutdownUI` never invokes the registered close callback.  The
caller-thread teardown nulls `g_closeCallback` (source line 1299; the
UI-thread cleanup closure already nulled it at line 1096) before the
one-shot firing block (source lines 1393-1406) reads it, so the guarded
invocation can never happen, in any state. -/
theorem ShutdownUI_close_callback_never_invoked (st : Globals) :
    (ShutdownUI st).closeCbInvocations = st.closeCbInvocations := by
  unfold ShutdownUI
  dsimp only
  split
  · rfl
  · simp only [Bool.and_false]
    split
    · simp [runUIQueue_closeCbInvocations]
    · simp

/-- C1 evaluated at the concrete failing input: in a running state with a
close callback registered, a completed `ShutdownUI` has delivered zero
close notifications (the claim requires exactly one). -/
theorem ShutdownUI_close_callback_zero_at_GRunning :
    GRunning.closeCallback = true ∧
    (ShutdownUI GRunning).closeCbInvocations = 0 := by
  refine ⟨rfl, ?_⟩
  rw [ShutdownUI_close_callback_never_invoked GRunning]
  rfl

/-- C3 counterexample: after a completed first `ShutdownUI` from a running
state, the shutdown-requested flag is still set (the claim says it is
reset).  `g_shutdownRequested` is assigned only at source line 1029 and is
never cleared. -/
theorem ShutdownUI_leaves_shutdownRequested_set :
    (ShutdownUI GRunning).shutdownRequested = true := by rfl

/-- C3 (amended): after a completed first-call `ShutdownUI`, app-ready,
the already-started flag, the window-creation-scheduled flag, the
window-create-attempt counter, window-ready, the dispatcher reference and
the UI thread id are all reset, but the shutdown-requested flag is NOT
reset: it remains set for the rest of the process lifetime, so a
subsequent `InitUI` restarts the thread while shutdown-guarded operations
stay disabled. -/
theorem ShutdownUI_resets_flags_except_shutdownRequested (st : Globals)
    (h : st.shutdownRequested = false) :
    (ShutdownUI st).appReady = false ∧
    (ShutdownUI st).appThreadStarted = false ∧
    (ShutdownUI st).windowCreationScheduled = false ∧
    (ShutdownUI st).windowCreateAttempts = 0 ∧
    (ShutdownUI st).windowReady = false ∧
    (ShutdownUI st).dispatcherQueue = false ∧
    (ShutdownUI st).uiThreadId = 0 ∧
    (ShutdownUI st).shutdownRequested = true := by
  unfold ShutdownUI
  rw [h]
  dsimp only
  rw [if_neg (by simp)]
  refine ⟨rfl, rfl, rfl, rfl, rfl, rfl, rfl, ?_⟩
  repeat' split
  all_goals simp [runUIQueue_shutdownRequested]

/-- C3 witness at the concrete running state. -/
theorem ShutdownUI_resets_flags_witness :
    (ShutdownUI GRunning).appReady = false ∧
    (ShutdownUI GRunning).appThreadStarted = false ∧
    (ShutdownUI GRunning).windowCreationScheduled = false ∧
    (ShutdownUI GRunning).windowCreateAttempts = 0 ∧
    (ShutdownUI GRunning).windowReady = false ∧
    (ShutdownUI GRunning).dispatcherQueue = false ∧
    (ShutdownUI GRunning).uiThreadId = 0 ∧
    (ShutdownUI GRunning).shutdownRequested = true :=
  ShutdownUI_resets_flags_except_shutdownRequested GRunning rfl

/-! ### Fire-and-forget guards (C4) and pending values (C2) -/

/-- C4 counterexample: with shutdown already requested,
`set_window_min_max` is not skipped: it still stores the requested bounds
(source lines 1716-1719 run unconditionally, with no shutdown check). -/
theorem set_window_min_max_not_skipped_after_shutdown :
    GShutRequested.shutdownRequested = true ∧
    (set_window_min_max 100 150 800 900 GShutRequested).minClientW
      ≠ GShutRequested.minClientW := by
  exact ⟨rfl, by decide⟩

/-- C4 (amended): of the three fire-and-forget operations only
`set_window_background_color` checks the shutdown flag and is silently
skipped once shutdown has been requested.  `set_window_min_max` always
stores the four bounds, and `set_window_title` is guarded only by the
null-title/absent-window/dispatcher checks — with a window still present
it still enqueues the title closure after shutdown was requested. -/
theorem fire_and_forget_shutdown_guards (st : Globals) (a r g b : Nat)
    (mw mh xw xh : Int) (t : String) (ui : Bool)
    (h : st.shutdownRequested = true) :
    set_window_background_color a r g b ui st = st ∧
    (set_window_min_max mw mh xw xh st).minClientW = mw ∧
    (set_window_min_max mw mh xw xh st).minClientH = mh ∧
    (set_window_min_max mw mh xw xh st).maxClientW = xw ∧
    (set_window_min_max mw mh xw xh st).maxClientH = xh ∧
    (st.window = true → st.dispatcherQueue = true →
      (set_window_title (some t) false st).uiQueue
        = st.uiQueue ++ [UIWork.setTitle t]) := by
  refine ⟨?_, rfl, rfl, rfl, rfl, ?_⟩
  · unfold set_window_background_color
    rw [if_pos h]
  · intro hw hd
    unfold set_window_title
    rw [hw]
    simp [hd]

/-- C4 witness: an active state with shutdown requested; concrete
arguments for all three operations. -/
theorem fire_and_forget_shutdown_guards_witness :
    set_window_background_color 1 2 3 4 false GShutActive = GShutActive ∧
    (set_window_min_max 100 150 800 900 GShutActive).minClientW = 100 ∧
    (set_window_min_max 100 150 800 900 GShutActive).minClientH = 150 ∧
    (set_window_min_max 100 150 800 900 GShutActive).maxClientW = 800 ∧
    (set_window_min_max 100 150 800 900 GShutActive).maxClientH = 900 ∧
    (GShutActive.window = true → GShutActive.dispatcherQueue = true →
      (set_window_title (some "T") false GShutActive).uiQueue
        = GShutActive.uiQueue ++ [UIWork.setTitle "T"]) :=
  fire_and_forget_shutdown_guards GShutActive 1 2 3 4 100 150 800 900 "T" false rfl

/-- C2 counterexample: calling `set_window_title("X")` before any window
exists is a no-op (source line 1484 returns early and nothing writes the
pending-title slot), so creating the window afterwards with
`create_window(800, 600, null)` yields the default title
"Go WinUI Host", not "X" — while the requested client size is applied. -/
theorem set_window_title_before_create_is_lost :
    (driveCreation (fun _ => CreateOutcome.ok) 2
        (create_window 800 600 none (set_window_title (some "X") false G0)).2).windowTitle
      ≠ "X" ∧
    (driveCreation (fun _ => CreateOutcome.ok) 2
        (create_window 800 600 none (set_window_title (some "X") false G0)).2).windowTitle
      = "Go WinUI Host" ∧
    (driveCreation (fun _ => CreateOutcome.ok) 2
        (create_window 800 600 none (set_window_title (some "X") false G0)).2).windowClientW
      = 800 ∧
    (driveCreation (fun _ => CreateOutcome.ok) 2
        (create_window 800 600 none (set_window_title (some "X") false G0)).2).windowClientH
      = 600 := by
  refine ⟨by decide, rfl, by decide, by decide⟩

/-- C2 (amended): `set_window_title` before any window exists is a no-op;
the pending title is stored only by the title argument of `create_window`.  If
`create_window(w, h, t)` with a non-empty title and positive size is
called before any window exists, the creation attempt applies title `t`
and client size `(w, h)` at creation time. -/
theorem pending_title_size_via_create_window (t : String) (w h : Int) (u : Bool)
    (ht : t ≠ "") (hw : (0:Int) < w) (hh : (0:Int) < h) :
    set_window_title (some t) u G0 = G0 ∧
    (AttemptCreateMainWindow 0 CreateOutcome.ok
      (create_window w h (some t) G0).2).windowTitle = t ∧
    (AttemptCreateMainWindow 0 CreateOutcome.ok
      (create_window w h (some t) G0).2).windowClientW = w ∧
    (AttemptCreateMainWindow 0 CreateOutcome.ok
      (create_window w h (some t) G0).2).windowClientH = h := by
  have hstored : (create_window w h (some t) G0).2
      = { G0 with pendingWindowTitle := t, pendingInitialWidth := w,
                  pendingInitialHeight := h, windowCreationScheduled := true,
                  scheduled := [(0, 50)],
                  lastErrorMessage := "create_window: window not ready (scheduled)" } := by
    unfold create_window
    simp [G0, S_OK, ht, hw, hh, ScheduleWindowCreation]
  refine ⟨rfl, ?_, ?_, ?_⟩ <;>
    · rw [hstored]
      unfold AttemptCreateMainWindow
      simp [G0, S_OK, ht, hw, hh]

/-- C2 witness: title "X" and size (800, 600) supplied to `create_window`
before any window exists are applied at creation. -/
theorem pending_title_size_via_create_window_witness :
    set_window_title (some "X") false G0 = G0 ∧
    (AttemptCreateMainWindow 0 CreateOutcome.ok
      (create_window 800 600 (some "X") G0).2).windowTitle = "X" ∧
    (AttemptCreateMainWindow 0 CreateOutcome.ok
      (create_window 800 600 (some "X") G0).2).windowClientW = 800 ∧
    (AttemptCreateMainWindow 0 CreateOutcome.ok
      (create_window 800 600 (some "X") G0).2).windowClientH = 600 :=
  pending_title_size_via_create_window "X" 800 600 false (by decide) (by decide)
    (by decide)

/-! ### Window-creation retry (C7) -/

theorem string_append_data (a b : String) : (a ++ b).data = a.data ++ b.data := by
  cases a
  cases b
  rfl

/-- With nothing scheduled, the creation dispatcher runs nothing. -/
theorem driveCreation_empty (o : Nat → CreateOutcome) (fuel : Nat) (st : Globals)
    (h : st.scheduled = []) : driveCreation o fuel st = st := by
  cases fuel with
  | zero => rfl
  | succ f =>
    unfold driveCreation
    rw [h]

/-- C7: when every creation attempt fails with the transient
`E_NOINTERFACE`, exactly 8 attempts run; attempt n (starting at 0) waits
`50 * (n + 1)` ms; afterwards the last-error message contains "giving up",
no window exists, nothing remains scheduled, and no amount of further
dispatching runs any additional attempt. -/
theorem window_create_retry_eight_attempts (emsg : String) :
    (driveCreation (noInterfaceAlways emsg) 20
      (ScheduleWindowCreation 0 GAppStarted)).executedAttempts
      = [(0, 50), (1, 100), (2, 150), (3, 200), (4, 250), (5, 300), (6, 350), (7, 400)] ∧
    (driveCreation (noInterfaceAlways emsg) 20
      (ScheduleWindowCreation 0 GAppStarted)).scheduled = [] ∧
    (driveCreation (noInterfaceAlways emsg) 20
      (ScheduleWindowCreation 0 GAppStarted)).window = false ∧
    containsGivingUp (driveCreation (noInterfaceAlways emsg) 20
      (ScheduleWindowCreation 0 GAppStarted)).lastErrorMessage ∧
    ∀ fuel, driveCreation (noInterfaceAlways emsg) fuel
        (driveCreation (noInterfaceAlways emsg) 20 (ScheduleWindowCreation 0 GAppStarted))
      = driveCreation (noInterfaceAlways emsg) 20 (ScheduleWindowCreation 0 GAppStarted) := by
  have hmsg : (driveCreation (noInterfaceAlways emsg) 20
      (ScheduleWindowCreation 0 GAppStarted)).lastErrorMessage
      = "Window creation failed " ++ emsg ++ " (giving up)" := rfl
  have hsch : (driveCreation (noInterfaceAlways emsg) 20
      (ScheduleWindowCreation 0 GAppStarted)).scheduled = [] := rfl
  refine ⟨rfl, hsch, rfl, ?_, ?_⟩
  · rw [hmsg]
    refine ⟨("Window creation failed ").data ++ emsg.data ++ (" (").data, (")").data, ?_⟩
    rw [string_append_data, string_append_data]
    rw [show (" (giving up)" : String).data
        = (" (").data ++ ("giving up").data ++ (")").data from by decide]
    simp [List.append_assoc]
  · intro fuel
    exact driveCreation_empty _ fuel _ hsch

/-! ### Idempotent shutdown (C8) and bootstrap failure (C9) -/

/-- Once the flag is set, no later entry step wins. -/
theorem winnersCount_true (l : List Unit) : winnersCount l true = 0 := by
  induction l with
  | nil => rfl
  | cons x rest ih => simpa [winnersCount, shutdownFirstCallStep] using ih

/-- In every serialization of the concurrent entry steps, exactly one
caller observes `firstCall = true`. -/
theorem winnersCount_first (l : List Unit) (h : l ≠ []) :
    winnersCount l false = 1 := by
  cases l with
  | nil => exact absurd rfl h
  | cons x rest => simp [winnersCount, shutdownFirstCallStep, winnersCount_true]

/-- Effect of the first (teardown-performing) `ShutdownUI` call from a
running state: the teardown closure is enqueued once and executes once
during the join, teardown is marked finished, and the flag stays set. -/
theorem ShutdownUI_first_call (st : Globals)
    (hreq : st.shutdownRequested = false) (hdisp : st.dispatcherQueue = true)
    (hjoin : st.uiThreadJoinable = true) (hq : st.uiQueue = []) :
    (ShutdownUI st).cleanupEnqueues = st.cleanupEnqueues + 1 ∧
    (ShutdownUI st).teardownExecuted = st.teardownExecuted + 1 ∧
    (ShutdownUI st).shutdownRequested = true ∧
    (ShutdownUI st).shutdownFinished = true ∧
    (ShutdownUI st).lastErrorMessage = "Shutdown complete" := by
  unfold ShutdownUI
  rw [hreq]
  dsimp only
  rw [if_neg (by simp)]
  simp [hdisp, hjoin, hq, runUIQueue, runUIWork]

/-- A `ShutdownUI` call after teardown finished takes the fast no-op path:
it only updates the last-result message. -/
theorem ShutdownUI_fast (s : Globals)
    (h1 : s.shutdownRequested = true) (h2 : s.shutdownFinished = true) :
    (ShutdownUI s).cleanupEnqueues = s.cleanupEnqueues ∧
    (ShutdownUI s).teardownExecuted = s.teardownExecuted ∧
    (ShutdownUI s).shutdownRequested = true ∧
    (ShutdownUI s).shutdownFinished = true ∧
    (ShutdownUI s).lastErrorMessage = "Shutdown complete (idempotent fast-path)" := by
  unfold ShutdownUI
  rw [h1]
  dsimp only
  rw [if_pos ⟨rfl, h2⟩]
  exact ⟨rfl, rfl, rfl, h2, rfl⟩

theorem ShutdownUI_iterate_fast (m : Nat) (s : Globals)
    (h1 : s.shutdownRequested = true) (h2 : s.shutdownFinished = true) :
    (ShutdownUI^[m] s).cleanupEnqueues = s.cleanupEnqueues ∧
    (ShutdownUI^[m] s).teardownExecuted = s.teardownExecuted ∧
    (ShutdownUI^[m] s).shutdownRequested = true ∧
    (ShutdownUI^[m] s).shutdownFinished = true ∧
    (1 ≤ m → (ShutdownUI^[m] s).lastErrorMessage
      = "Shutdown complete (idempotent fast-path)") := by
  induction m generalizing s with
  | zero => exact ⟨rfl, rfl, h1, h2, by omega⟩
  | succ m ih =>
    obtain ⟨f1, f2, f3, f4, f5⟩ := ShutdownUI_fast s h1 h2
    obtain ⟨i1, i2, i3, i4, i5⟩ := ih (ShutdownUI s) f3 f4
    rw [Function.iterate_succ_apply]
    refine ⟨by rw [i1, f1], by rw [i2, f2], i3, i4, ?_⟩
    intro hm
    cases Nat.eq_zero_or_pos m with
    | inl h0 =>
      subst h0
      simpa using f5
    | inr hpos => exact i5 hpos

/-- C8: from a running state, N sequential `ShutdownUI` calls (N ≥ 1)
enqueue the UI-thread teardown sequence exactly once (by the first caller)
and it executes exactly once; calls after completion take the fast no-op
path.  For concurrent callers, the mutex-guarded entry step admits exactly
one winner in every serialization order, and only the winner enqueues the
teardown sequence. -/
theorem ShutdownUI_idempotent (st : Globals) (N : Nat)
    (hreq : st.shutdownRequested = false) (hdisp : st.dispatcherQueue = true)
    (hjoin : st.uiThreadJoinable = true) (hq : st.uiQueue = [])
    (hce : st.cleanupEnqueues = 0) (hte : st.teardownExecuted = 0)
    (hN : 1 ≤ N) :
    (ShutdownUI^[N] st).cleanupEnqueues = 1 ∧
    (ShutdownUI^[N] st).teardownExecuted = 1 ∧
    (2 ≤ N → (ShutdownUI^[N] st).lastErrorMessage
      = "Shutdown complete (idempotent fast-path)") ∧
    (∀ l : List Unit, l ≠ [] → winnersCount l false = 1) := by
  obtain ⟨m, rfl⟩ : ∃ m, N = m + 1 := ⟨N - 1, by omega⟩
  obtain ⟨s1, s2, s3, s4, s5⟩ := ShutdownUI_first_call st hreq hdisp hjoin hq
  obtain ⟨i1, i2, i3, i4, i5⟩ := ShutdownUI_iterate_fast m (ShutdownUI st) s3 s4
  rw [Function.iterate_succ_apply]
  refine ⟨by rw [i1, s1, hce], by rw [i2, s2, hte], ?_, winnersCount_first⟩
  intro h2N
  exact i5 (by omega)

/-- C8 witness: three sequential calls from the concrete running state. -/
theorem ShutdownUI_idempotent_witness :
    (ShutdownUI^[3] GRunning).cleanupEnqueues = 1 ∧
    (ShutdownUI^[3] GRunning).teardownExecuted = 1 ∧
    (2 ≤ 3 → (ShutdownUI^[3] GRunning).lastErrorMessage
      = "Shutdown complete (idempotent fast-path)") ∧
    (∀ l : List Unit, l ≠ [] → winnersCount l false = 1) :=
  ShutdownUI_idempotent GRunning 3 rfl rfl rfl rfl rfl rfl (by omega)

/-- If every candidate fails, the loop returns the last failing code. -/
theorem bootstrapLoop_all_fail (attemptHR : Nat → Int) (l : List Nat) :
    ∀ lastHr, (∀ v ∈ l, attemptHR v < 0) → lastHr < 0 →
    (bootstrapLoop attemptHR l lastHr).1 < 0 := by
  induction l with
  | nil =>
    intro lastHr h hl
    exact hl
  | cons v rest ih =>
    intro lastHr h hl
    have hv := h v (List.mem_cons_self v rest)
    unfold bootstrapLoop
    rw [if_neg (by omega)]
    exact ih _ (fun u hu => h u (List.mem_cons_of_mem v hu)) hv

/-- C9: on total bootstrap failure (every version candidate fails), the
app-ready flag is still set (so the wait inside `InitUI` completes), the message
run loop is never started, and `InitUI` returns the recorded failing
result code. -/
theorem InitUI_bootstrap_total_failure (st : Globals) (loadOk : Bool)
    (attemptHR : Nat → Int)
    (hfresh : st.appThreadStarted = false) (hrun : st.runLoopStarted = false)
    (hfail : ∀ v ∈ kBootstrapCandidates, attemptHR v < 0) :
    (InitUI loadOk attemptHR st).2.appReady = true ∧
    (InitUI loadOk attemptHR st).2.runLoopStarted = false ∧
    (InitUI loadOk attemptHR st).1 = (InitUI loadOk attemptHR st).2.lastHRESULT ∧
    (InitUI loadOk attemptHR st).1 < 0 := by
  have hboot : (TryBootstrapMulti loadOk attemptHR).1 < 0 := by
    unfold TryBootstrapMulti
    cases loadOk with
    | false =>
      rw [if_pos rfl]
      norm_num [ERROR_MOD_NOT_FOUND_HR]
    | true =>
      rw [if_neg (by simp)]
      exact bootstrapLoop_all_fail attemptHR kBootstrapCandidates E_FAIL hfail
        (by norm_num [E_FAIL])
  simp only [InitUI, StartAppThread, uiThreadBody, hfresh]
  simp [S_OK, hboot, hrun]

/-- C9 witness: fresh state, resolvable bootstrap DLL, every candidate
returning `E_FAIL`. -/
theorem InitUI_bootstrap_total_failure_witness :
    (InitUI true (fun _ => E_FAIL) G0).2.appReady = true ∧
    (InitUI true (fun _ => E_FAIL) G0).2.runLoopStarted = false ∧
    (InitUI true (fun _ => E_FAIL) G0).1
      = (InitUI true (fun _ => E_FAIL) G0).2.lastHRESULT ∧
    (InitUI true (fun _ => E_FAIL) G0).1 < 0 :=
  InitUI_bootstrap_total_failure G0 true (fun _ => E_FAIL) rfl rfl
    (fun v hv => by norm_num [E_FAIL])
